import Mathlib

/-!
Verification of the structured-logging output layer of component-base.

The development shallowly embeds the Go code of `pkg/log`:
severities are `zapcore.Level` values modelled as integers
(debug = -1 … fatal = 5), configuration is the `Options` struct,
the level router is `newLoggerWithLevelOutput`, the destination
resolver is `createWriteSyncer`, and the time-rotating file writer is
`TimeRotationWriter` with its `Write` / `Close` / `rotate` /
`cleanOldFiles` operations.  Time is modelled at day granularity
(an `Int` of days), matching the `AddDate(0, 0, -maxAge)` cutoff
arithmetic of the retention cleanup.  The filesystem environment is a
record of boolean failure flags, and heap allocation (pointer
identity of writers) is modelled by a fresh-id counter.
-/

namespace CompBase

/-! ## Severity levels (zapcore.Level) -/

/-- zapcore.Level is an int8; debug = -1, info = 0, warn = 1, error = 2,
dpanic = 3, panic = 4, fatal = 5. -/
abbrev ZapLevel := Int

def debugLevel : ZapLevel := -1

def infoLevel : ZapLevel := 0

def warnLevel : ZapLevel := 1

def errorLevel : ZapLevel := 2

def dpanicLevel : ZapLevel := 3

def panicLevelV : ZapLevel := 4

def fatalLevel : ZapLevel := 5

/-- One pass of zapcore's `Level.unmarshalText`: exact string match,
including the upper-case spellings and the empty string (which zap maps
to info so that the zero value is useful). -/
def unmarshalTextExact (s : String) : Option ZapLevel :=
  if s = "debug" ∨ s = "DEBUG" then some debugLevel
  else if s = "info" ∨ s = "INFO" ∨ s = "" then some infoLevel
  else if s = "warn" ∨ s = "WARN" then some warnLevel
  else if s = "error" ∨ s = "ERROR" then some errorLevel
  else if s = "dpanic" ∨ s = "DPANIC" then some dpanicLevel
  else if s = "panic" ∨ s = "PANIC" then some panicLevelV
  else if s = "fatal" ∨ s = "FATAL" then some fatalLevel
  else none

/-- ASCII lower-casing of one character, as `bytes.ToLower` performs on
the level names (they are ASCII). -/
def asciiLower (c : Char) : Char :=
  if 65 ≤ c.toNat ∧ c.toNat ≤ 90 then Char.ofNat (c.toNat + 32) else c

/-- ASCII lower-casing of a string. -/
def strLower (s : String) : String :=
  ⟨s.data.map asciiLower⟩

/-- zapcore's `Level.UnmarshalText`: try the text as given, then its
lower-cased form; `none` models the "unrecognized level" error. -/
def unmarshalText (s : String) : Option ZapLevel :=
  match unmarshalTextExact s with
  | some l => some l
  | none => unmarshalTextExact (strLower s)

/-! ## Options (pkg/log options.go) -/

/-- The fields of `log.Options` consumed by the code under study. -/
structure Options where
  OutputPaths : List String
  Level : String
  Format : String
  MaxSize : Int
  MaxAge : Int
  MaxBackups : Int
  Compress : Bool
  EnableTimeRotation : Bool
  TimeRotationFormat : String
  LevelOutputPaths : List (String × List String)
  EnableLevelOutput : Bool
  LevelOutputMode : String
deriving DecidableEq, Repr

/-- `log.NewOptions` default values. -/
def NewOptions : Options where
  OutputPaths := ["stdout"]
  Level := "info"
  Format := "console"
  MaxSize := 100
  MaxAge := 30
  MaxBackups := 10
  Compress := true
  EnableTimeRotation := false
  TimeRotationFormat := "2006-01-02"
  LevelOutputPaths := []
  EnableLevelOutput := false
  LevelOutputMode := "above"

/-! ## Destinations / writers -/

/-- A concrete writable target produced by the destination resolver:
a console stream (`zap.Open "stdout"/"stderr"`), a time-rotating file
writer (`NewTimeRotationWriter`), or the size-rotating lumberjack
writer. -/
inductive Writer where
  | console (stream : String)
  | timeRotFile (filename timeFormat : String) (maxAge : Int) (compress : Bool)
  | sizeRotFile (path : String)
deriving DecidableEq, Repr

/-- `createWriteSyncer` from the routing code: "stdout"/"stderr" open the
console stream, otherwise a file path resolves to a time-rotation writer
when time rotation is enabled and to the lumberjack writer otherwise.
The Go function returns nil only when `zap.Open` fails on a console
stream; the environment is modelled as healthy, so that branch always
succeeds here. -/
def createWriteSyncer (path : String) (opts : Options) : Option Writer :=
  if path = "stdout" ∨ path = "stderr" then
    some (.console path)
  else if opts.EnableTimeRotation then
    some (.timeRotFile path opts.TimeRotationFormat opts.MaxAge opts.Compress)
  else
    some (.sizeRotFile path)

/-- The per-rule loop body that collects usable write syncers, dropping
nil results. -/
def buildSyncers (paths : List String) (opts : Options) : List Writer :=
  paths.filterMap (fun p => createWriteSyncer p opts)

/-! ## Level router (newLoggerWithLevelOutput) -/

/-- The level predicate attached to a core: `zapcore.NewCore` with a
bare `Level` enables `l >= level`, and the two `LevelEnablerFunc`
closures of the router enable exactly `l == level`. -/
inductive LevelEnabler where
  | minLevel (l : ZapLevel)
  | exactLevel (l : ZapLevel)
deriving DecidableEq, Repr

/-- `Enabled` of the modelled enabler. -/
def LevelEnabler.accepts : LevelEnabler → ZapLevel → Bool
  | .minLevel m, s => decide (m ≤ s)
  | .exactLevel l, s => decide (s = l)

/-- One built pipeline: a level predicate over the deduplicated,
multi-write-syncer wrapped destination writers of one rule. -/
structure Core where
  enabler : LevelEnabler
  writers : List Writer
deriving DecidableEq, Repr

/-- Duplicate mode, first phase: the "all" entry of `LevelOutputPaths`
yields one core recording every severity from the configured minimum
level up, provided the path list and the resulting syncer list are
non-empty. -/
def allCore (opts : Options) (zapLevel : ZapLevel) : List Core :=
  match List.lookup "all" opts.LevelOutputPaths with
  | some allPaths =>
    if 0 < allPaths.length then
      let ws := buildSyncers allPaths opts
      if 0 < ws.length then [⟨.minLevel zapLevel, ws⟩] else []
    else []
  | none => []

/-- Duplicate mode, second phase: every non-"all" entry whose level key
parses yields an exact-level core, provided it has a usable syncer. -/
def dupLevelCores (opts : Options) : List Core :=
  opts.LevelOutputPaths.filterMap fun entry =>
    if entry.1 = "all" then none
    else
      match unmarshalText entry.1 with
      | none => none
      | some level =>
        let ws := buildSyncers entry.2 opts
        if 0 < ws.length then some ⟨.exactLevel level, ws⟩ else none

/-- The `else` branch of the router: exact and above modes.  Entries
whose key does not parse (including "all") are skipped; `exact` mode
installs an equality predicate and every other mode defaults to the
at-or-above predicate. -/
def nonDupCores (opts : Options) : List Core :=
  opts.LevelOutputPaths.filterMap fun entry =>
    match unmarshalText entry.1 with
    | none => none
    | some level =>
      let ws := buildSyncers entry.2 opts
      if ws.length = 0 then none
      else if opts.LevelOutputMode = "exact" then some ⟨.exactLevel level, ws⟩
      else some ⟨.minLevel level, ws⟩

/-- The cores accumulated by `newLoggerWithLevelOutput` before the
emptiness check. -/
def buildCores (opts : Options) (zapLevel : ZapLevel) : List Core :=
  if opts.LevelOutputMode = "duplicate" then
    allCore opts zapLevel ++ dupLevelCores opts
  else
    nonDupCores opts

/-- `newLoggerWithLevelOutput`: build the cores and fail with the
configuration error exactly when none resulted. -/
def newLoggerWithLevelOutput (opts : Options) (zapLevel : ZapLevel) :
    Except String (List Core) :=
  let cores := buildCores opts zapLevel
  if cores.length = 0 then .error "no valid log output configured"
  else .ok cores

/-- The destination sets a record of severity `s` is delivered to: the
writer list of every core whose enabler accepts `s` (zap's Tee core
forwards the record to each enabled sub-core). -/
def deliveredSets (cores : List Core) (s : ZapLevel) : List (List Writer) :=
  (cores.filter (fun c => c.enabler.accepts s)).map (fun c => c.writers)

/-! ## Path helpers (path/filepath) -/

/-- `filepath.Ext`: the suffix beginning at the final dot in the final
element of the path, empty if there is no dot.  Implemented by scanning
the reversed character list until a dot or a path separator. -/
def extRevAux : List Char → List Char → List Char
  | [], _ => []
  | c :: rest, acc =>
    if c = '/' then []
    else if c = '.' then c :: acc
    else extRevAux rest (c :: acc)

/-- `filepath.Ext` on strings. -/
def pathExt (s : String) : String :=
  ⟨extRevAux s.data.reverse []⟩

/-- Go slice `s[:len(s)-n]`, dropping the last `n` characters. -/
def strDropLast (s : String) (n : Nat) : String :=
  ⟨s.data.take (s.data.length - n)⟩

/-- `filepath.Base`: last element of the path after stripping trailing
separators; "." for the empty path, "/" when only separators remain. -/
def pathBase (s : String) : String :=
  if s = "" then "."
  else
    let rev := s.data.reverse.dropWhile (fun c => c = '/')
    if rev = [] then "/"
    else ⟨(rev.takeWhile (fun c => c ≠ '/')).reverse⟩

/-- The file-naming rule of `rotate` and `getCurrentFilename`:
`fmt.Sprintf("%s.%s%s", base, date, ext)` where `ext` is the extension
of the base filename and `base` the filename with the extension cut
off. -/
def rotatedName (filename date : String) : String :=
  strDropLast filename (pathExt filename).length ++ "." ++ date ++ pathExt filename

/-! ## TimeRotationWriter -/

/-- An open-file resource.  `closed` records that `Close` was called on
it: Go's `os.File.Close` fails with "file already closed" on a second
call. -/
structure FileHandle where
  name : String
  closed : Bool
deriving DecidableEq, Repr

/-- The mutable state of a `TimeRotationWriter` (fields guarded by its
mutex; the mutex itself does not appear since every modelled operation
runs with it held). -/
structure RotWriter where
  filename : String
  timeFormat : String
  currentDate : String
  currentFile : Option FileHandle
  maxAge : Int
  compress : Bool
deriving DecidableEq, Repr

/-- `NewTimeRotationWriter`: fresh writer, no handle, empty date. -/
def newTimeRotationWriter (filename timeFormat : String) (maxAge : Int)
    (compress : Bool) : RotWriter :=
  ⟨filename, timeFormat, "", none, maxAge, compress⟩

/-- Filesystem behavior during one operation: whether the close, mkdir,
open, or write system calls fail. -/
structure FsEnv where
  closeFails : Bool
  mkdirFails : Bool
  openFails : Bool
  writeFails : Bool
deriving DecidableEq, Repr

/-- An environment in which every system call succeeds. -/
def healthyFs : FsEnv := ⟨false, false, false, false⟩

/-- `os.File.Close`: an already-closed handle yields the
"file already closed" error and stays as it is; otherwise the handle is
marked closed (also when the underlying system call fails, as in Go,
where any further use of the handle errors after `Close` returns). -/
def closeHandle (env : FsEnv) (h : FileHandle) : Option String × FileHandle :=
  if h.closed then (some "file already closed", h)
  else ((if env.closeFails then some "close error" else none), { h with closed := true })

/-- `rotate`, second half: ensure the directory exists, open the new
file, and update `currentFile`/`currentDate` together.  On error the
state is left as it stands. -/
def rotateOpen (env : FsEnv) (w : RotWriter) (newDate : String) :
    Option String × RotWriter :=
  if env.mkdirFails then (some "mkdir error", w)
  else if env.openFails then (some "open error", w)
  else (none,
    { w with currentFile := some ⟨rotatedName w.filename newDate, false⟩,
             currentDate := newDate })

/-- `rotate`: close the previous handle if any — returning its error and
aborting the rotation when that close fails — then open the new bucket's
file.  (The successful path also spawns the asynchronous
`cleanOldFiles`; retention is modelled separately below.) -/
def rotate (env : FsEnv) (w : RotWriter) (newDate : String) :
    Option String × RotWriter :=
  match w.currentFile with
  | some h =>
    match closeHandle env h with
    | (some e, h') => (some e, { w with currentFile := some h' })
    | (none, h') => rotateOpen env { w with currentFile := some h' } newDate
  | none => rotateOpen env w newDate

/-- Outcome of one `Write` call: the byte count and error returned, and
the name of the file actually written to (none when no bytes reached
any file). -/
structure WriteOutcome where
  n : Nat
  err : Option String
  writtenTo : Option String
deriving DecidableEq, Repr

/-- The rotation trigger of `Write`: no open handle, or the rendered
date differs from `currentDate`. -/
def needsRotation (w : RotWriter) (currentDate : String) : Bool :=
  w.currentFile.isNone || w.currentDate != currentDate

/-- `w.currentFile.Write(p)`: fails on a nil or closed handle or a
failing disk, otherwise writes all `p` bytes to the handle's file. -/
def writeToHandle (env : FsEnv) (w : RotWriter) (p : Nat) : WriteOutcome :=
  match w.currentFile with
  | none => ⟨0, some "invalid file handle", none⟩
  | some h =>
    if h.closed then ⟨0, some "file already closed", none⟩
    else if env.writeFails then ⟨0, some "write error", none⟩
    else ⟨p, none, some h.name⟩

/-- `Write`: render the current date (`nowDate` is the rendering of the
clock under `timeFormat`), rotate first when the trigger fires —
returning `(0, err)` if rotation fails — then write to the current
handle. -/
def write (env : FsEnv) (w : RotWriter) (nowDate : String) (p : Nat) :
    WriteOutcome × RotWriter :=
  if needsRotation w nowDate then
    match rotate env w nowDate with
    | (some e, w') => (⟨0, some e, none⟩, w')
    | (none, w') => (writeToHandle env w' p, w')
  else (writeToHandle env w p, w)

/-- `Close`: close the current handle if open; the `currentFile` field
itself is left in place (Go keeps the pointer). -/
def closeWriter (env : FsEnv) (w : RotWriter) : Option String × RotWriter :=
  match w.currentFile with
  | none => (none, w)
  | some h =>
    match closeHandle env h with
    | (e, h') => (e, { w with currentFile := some h' })

/-- `getCurrentFilename`: the open handle's name, or the name the next
rotation would open (`nowDate` is the rendering of the clock). -/
def getCurrentFilename (w : RotWriter) (nowDate : String) : String :=
  match w.currentFile with
  | some h => h.name
  | none => rotatedName w.filename nowDate

/-! ## Retention cleanup (cleanOldFiles) -/

/-- A directory entry seen by the `filepath.Walk` of the cleanup, with
its modification time in days. -/
structure FsFile where
  path : String
  modTime : Int
  isDir : Bool
deriving DecidableEq, Repr

/-- The per-file predicate of `cleanOldFiles`: not a directory, base
name carrying the writer's base prefix, and modified before the
cutoff. -/
def cleanRemoves (base : String) (cutoff : Int) (f : FsFile) : Bool :=
  !f.isDir && base.data.isPrefixOf (pathBase f.path).data && decide (f.modTime < cutoff)

/-- `cleanOldFiles`: with `maxAge ≤ 0` do nothing; otherwise delete
every sibling file whose base name starts with the base filename (sans
extension) and whose modification time lies before `now - maxAge` days.
The result is the list of deleted paths. -/
def cleanOldFiles (filename : String) (maxAge : Int) (now : Int)
    (files : List FsFile) : List String :=
  if maxAge ≤ 0 then []
  else
    let ext := pathExt filename
    let base := pathBase (strDropLast filename ext.length)
    let cutoff := now - maxAge
    (files.filter (cleanRemoves base cutoff)).map (fun f => f.path)

/-! ## Allocation model of the destination resolver -/

/-- A writer together with its heap identity: `NewTimeRotationWriter`
returns a freshly allocated object, `zap.Open` a freshly built syncer
for the stream, and `getLumberjackWriter` a fresh lumberjack logger.
Pointer identity is modelled by the `id` drawn from a counter. -/
structure WriterRef where
  id : Nat
  kind : Writer
deriving DecidableEq, Repr

/-- `createWriteSyncer`, allocation made explicit: every call constructs
its writer anew and bumps the counter; no branch consults a cache. -/
def createWriteSyncerAlloc (path : String) (opts : Options) (nextId : Nat) :
    Option WriterRef × Nat :=
  if path = "stdout" ∨ path = "stderr" then
    (some ⟨nextId, .console path⟩, nextId + 1)
  else if opts.EnableTimeRotation then
    (some ⟨nextId, .timeRotFile path opts.TimeRotationFormat opts.MaxAge opts.Compress⟩,
     nextId + 1)
  else
    (some ⟨nextId, .sizeRotFile path⟩, nextId + 1)

/-! ## Options validation and sink construction -/

/-- `Options.Validate`: collects (never aborts on) the level parse
error, the format check, and the rotation bounds checks. -/
def Validate (o : Options) : List String :=
  (if (unmarshalText o.Level).isNone then ["unrecognized level: " ++ o.Level] else [])
    ++ (if strLower o.Format ≠ "console" ∧ strLower o.Format ≠ "json" then
          ["not a valid log format: " ++ o.Format] else [])
    ++ (if o.MaxSize ≤ 0 then ["max-size must be greater than 0"] else [])
    ++ (if o.MaxAge < 0 then ["max-age cannot be negative"] else [])
    ++ (if o.MaxBackups < 0 then ["max-backups cannot be negative"] else [])

/-- The constructed sink: the resolved minimum level and the pipelines
of the chosen construction path. -/
structure Sink where
  level : ZapLevel
  pipelines : List Core
deriving DecidableEq, Repr

/-- `newLoggerWithTimeRotation`: one core at the minimum level over all
output paths, each file path bound to a time-rotation writer. -/
def newLoggerWithTimeRotation (opts : Options) (zapLevel : ZapLevel) :
    Except String (List Core) :=
  let ws := opts.OutputPaths.map fun path =>
    if path = "stdout" then Writer.console "stdout"
    else if path = "stderr" then Writer.console "stderr"
    else Writer.timeRotFile path opts.TimeRotationFormat opts.MaxAge opts.Compress
  if ws.length = 0 then .error "no valid output paths configured"
  else .ok [⟨.minLevel zapLevel, ws⟩]

/-- `log.New`: parse `opts.Level`, falling back to info when the name is
unrecognized, then build through the level router, the time-rotation
builder, or the default zap config (modelled as one at-or-above core
over the output paths).  The `.error` result models the `panic(err)` of
the Go code; an unparseable level never takes that path. -/
def New (opts : Options) : Except String Sink :=
  let zapLevel :=
    match unmarshalText opts.Level with
    | some l => l
    | none => infoLevel
  if opts.EnableLevelOutput ∧ 0 < opts.LevelOutputPaths.length then
    (newLoggerWithLevelOutput opts zapLevel).map fun cores => ⟨zapLevel, cores⟩
  else if opts.EnableTimeRotation then
    (newLoggerWithTimeRotation opts zapLevel).map fun cores => ⟨zapLevel, cores⟩
  else
    .ok ⟨zapLevel, [⟨.minLevel zapLevel, buildSyncers opts.OutputPaths opts⟩]⟩

/-! ## Helper lemmas -/

theorem buildSyncers_nil (opts : Options) : buildSyncers [] opts = [] := rfl

theorem length_pos_of_buildSyncers_ne_nil {paths : List String} {opts : Options}
    (h : buildSyncers paths opts ≠ []) : 0 < paths.length := by
  cases paths with
  | nil => exact absurd (buildSyncers_nil opts) h
  | cons p ps => simp

theorem minLevel_accepts_iff (m s : ZapLevel) :
    (LevelEnabler.minLevel m).accepts s = true ↔ m ≤ s := by
  simp [LevelEnabler.accepts]

theorem exactLevel_accepts_iff (l s : ZapLevel) :
    (LevelEnabler.exactLevel l).accepts s = true ↔ s = l := by
  simp [LevelEnabler.accepts]

theorem mem_deliveredSets_of_mem {cores : List Core} {c : Core} {s : ZapLevel}
    (hmem : c ∈ cores) (hacc : c.enabler.accepts s = true) :
    c.writers ∈ deliveredSets cores s :=
  List.mem_map.mpr ⟨c, List.mem_filter.mpr ⟨hmem, hacc⟩, rfl⟩

/-! ## C1 -/

/-- C1: in Duplicate routing mode, the pipeline built from the "all"
rule accepts a severity S iff S ≥ the configured minimum enabled level,
the pipeline built from any other rule with parsed level L accepts S
iff S = L, and a record whose severity equals a specific rule's level
and is ≥ the minimum level is delivered both to that rule's
destinations and to the "all" rule's destinations. -/
theorem c1_duplicate_mode_routing
    (opts : Options) (zapLevel S L : ZapLevel)
    (levelStr : String) (paths allPaths : List String)
    (hmode : opts.LevelOutputMode = "duplicate")
    (hall : List.lookup "all" opts.LevelOutputPaths = some allPaths)
    (hwsAll : buildSyncers allPaths opts ≠ [])
    (hmem : (levelStr, paths) ∈ opts.LevelOutputPaths)
    (hne : levelStr ≠ "all")
    (hparse : unmarshalText levelStr = some L)
    (hws : buildSyncers paths opts ≠ []) :
    (Core.mk (.minLevel zapLevel) (buildSyncers allPaths opts) ∈ buildCores opts zapLevel
      ∧ ((LevelEnabler.minLevel zapLevel).accepts S = true ↔ zapLevel ≤ S))
    ∧ (Core.mk (.exactLevel L) (buildSyncers paths opts) ∈ buildCores opts zapLevel
      ∧ ((LevelEnabler.exactLevel L).accepts S = true ↔ S = L))
    ∧ (S = L → zapLevel ≤ S →
        buildSyncers allPaths opts ∈ deliveredSets (buildCores opts zapLevel) S
        ∧ buildSyncers paths opts ∈ deliveredSets (buildCores opts zapLevel) S) := by
  have hAllLen : 0 < allPaths.length := length_pos_of_buildSyncers_ne_nil hwsAll
  have hWsLen : 0 < (buildSyncers allPaths opts).length := List.length_pos.mpr hwsAll
  have hCoresEq : buildCores opts zapLevel = allCore opts zapLevel ++ dupLevelCores opts := by
    unfold buildCores
    rw [if_pos hmode]
  have hAllMem :
      Core.mk (.minLevel zapLevel) (buildSyncers allPaths opts) ∈ buildCores opts zapLevel := by
    rw [hCoresEq]
    apply List.mem_append_left
    unfold allCore
    rw [hall]
    simp only [if_pos hAllLen, if_pos hWsLen]
    exact List.mem_singleton.mpr rfl
  have hExactMem :
      Core.mk (.exactLevel L) (buildSyncers paths opts) ∈ buildCores opts zapLevel := by
    rw [hCoresEq]
    apply List.mem_append_right
    unfold dupLevelCores
    apply List.mem_filterMap.mpr
    refine ⟨(levelStr, paths), hmem, ?_⟩
    simp only [if_neg hne, hparse, if_pos (List.length_pos.mpr hws)]
  refine ⟨⟨hAllMem, minLevel_accepts_iff zapLevel S⟩,
          ⟨hExactMem, exactLevel_accepts_iff L S⟩, ?_⟩
  intro hSL hmin
  constructor
  · exact mem_deliveredSets_of_mem hAllMem ((minLevel_accepts_iff zapLevel S).mpr hmin)
  · exact mem_deliveredSets_of_mem hExactMem ((exactLevel_accepts_iff L S).mpr hSL)

/-- Witness for C1: the spec's own scenario — an "all" rule on app.log
at minimum level info together with an "error" rule on err.log; an
error-level record reaches both destination sets. -/
theorem c1_duplicate_mode_routing_witness :
    (Core.mk (.minLevel infoLevel) [Writer.sizeRotFile "app.log"] ∈
        buildCores { NewOptions with EnableLevelOutput := true, LevelOutputMode := "duplicate", LevelOutputPaths := [("all", ["app.log"]), ("error", ["err.log"])] } infoLevel
      ∧ ((LevelEnabler.minLevel infoLevel).accepts errorLevel = true ↔ infoLevel ≤ errorLevel))
    ∧ (Core.mk (.exactLevel errorLevel) [Writer.sizeRotFile "err.log"] ∈
        buildCores { NewOptions with EnableLevelOutput := true, LevelOutputMode := "duplicate", LevelOutputPaths := [("all", ["app.log"]), ("error", ["err.log"])] } infoLevel
      ∧ ((LevelEnabler.exactLevel errorLevel).accepts errorLevel = true ↔ errorLevel = errorLevel))
    ∧ (errorLevel = errorLevel → infoLevel ≤ errorLevel →
        [Writer.sizeRotFile "app.log"] ∈
          deliveredSets (buildCores { NewOptions with EnableLevelOutput := true, LevelOutputMode := "duplicate", LevelOutputPaths := [("all", ["app.log"]), ("error", ["err.log"])] } infoLevel) errorLevel
        ∧ [Writer.sizeRotFile "err.log"] ∈
          deliveredSets (buildCores { NewOptions with EnableLevelOutput := true, LevelOutputMode := "duplicate", LevelOutputPaths := [("all", ["app.log"]), ("error", ["err.log"])] } infoLevel) errorLevel) :=
  c1_duplicate_mode_routing
    { NewOptions with EnableLevelOutput := true, LevelOutputMode := "duplicate", LevelOutputPaths := [("all", ["app.log"]), ("error", ["err.log"])] }
    infoLevel errorLevel errorLevel "error" ["err.log"] ["app.log"]
    (by decide) (by decide) (by decide) (by decide) (by decide) (by decide) (by decide)

/-! ## C2 -/

/-- C2: for a rule whose level key parses to L, Above mode installs the
predicate "S ≥ L" (S = L accepted, S = L − 1 rejected) and Exact mode
installs "S = L"; in both modes the built pipelines are independent of
the configured minimum enabled level. -/
theorem c2_above_exact_mode_predicates
    (opts : Options) (zapLevel zapLevel' S L : ZapLevel)
    (levelStr : String) (paths : List String)
    (hmem : (levelStr, paths) ∈ opts.LevelOutputPaths)
    (hparse : unmarshalText levelStr = some L)
    (hws : buildSyncers paths opts ≠ []) :
    (opts.LevelOutputMode = "above" →
      Core.mk (.minLevel L) (buildSyncers paths opts) ∈ buildCores opts zapLevel
      ∧ ((LevelEnabler.minLevel L).accepts S = true ↔ L ≤ S)
      ∧ (LevelEnabler.minLevel L).accepts L = true
      ∧ (LevelEnabler.minLevel L).accepts (L - 1) = false)
    ∧ (opts.LevelOutputMode = "exact" →
      Core.mk (.exactLevel L) (buildSyncers paths opts) ∈ buildCores opts zapLevel
      ∧ ((LevelEnabler.exactLevel L).accepts S = true ↔ S = L))
    ∧ (opts.LevelOutputMode ≠ "duplicate" →
      buildCores opts zapLevel = buildCores opts zapLevel') := by
  have hLenNe : ¬(buildSyncers paths opts).length = 0 := by
    simpa [List.length_eq_zero] using hws
  refine ⟨?_, ?_, ?_⟩
  · intro hmode
    have hndup : ¬opts.LevelOutputMode = "duplicate" := by simp [hmode]
    have hnex : ¬opts.LevelOutputMode = "exact" := by simp [hmode]
    have hmemCore :
        Core.mk (.minLevel L) (buildSyncers paths opts) ∈ buildCores opts zapLevel := by
      unfold buildCores
      rw [if_neg hndup]
      unfold nonDupCores
      apply List.mem_filterMap.mpr
      refine ⟨(levelStr, paths), hmem, ?_⟩
      simp only [hparse, if_neg hLenNe, if_neg hnex]
    refine ⟨hmemCore, minLevel_accepts_iff L S, ?_, ?_⟩
    · simp [LevelEnabler.accepts]
    · simp [LevelEnabler.accepts]
  · intro hmode
    have hndup : ¬opts.LevelOutputMode = "duplicate" := by simp [hmode]
    have hmemCore :
        Core.mk (.exactLevel L) (buildSyncers paths opts) ∈ buildCores opts zapLevel := by
      unfold buildCores
      rw [if_neg hndup]
      unfold nonDupCores
      apply List.mem_filterMap.mpr
      refine ⟨(levelStr, paths), hmem, ?_⟩
      simp only [hparse, if_neg hLenNe, if_pos hmode]
    exact ⟨hmemCore, exactLevel_accepts_iff L S⟩
  · intro hndup
    unfold buildCores
    rw [if_neg hndup, if_neg hndup]

/-- Witness for C2: an "above"-mode rule at warn over warn.log; severity
warn is accepted, info (one below) is rejected, and swapping the minimum
enabled level from info to fatal leaves the pipelines unchanged. -/
theorem c2_above_exact_mode_predicates_witness :
    (({ NewOptions with EnableLevelOutput := true, LevelOutputMode := "above", LevelOutputPaths := [("warn", ["warn.log"])] } : Options).LevelOutputMode = "above" →
      Core.mk (.minLevel warnLevel) [Writer.sizeRotFile "warn.log"] ∈
        buildCores { NewOptions with EnableLevelOutput := true, LevelOutputMode := "above", LevelOutputPaths := [("warn", ["warn.log"])] } infoLevel
      ∧ ((LevelEnabler.minLevel warnLevel).accepts warnLevel = true ↔ warnLevel ≤ warnLevel)
      ∧ (LevelEnabler.minLevel warnLevel).accepts warnLevel = true
      ∧ (LevelEnabler.minLevel warnLevel).accepts (warnLevel - 1) = false)
    ∧ (({ NewOptions with EnableLevelOutput := true, LevelOutputMode := "above", LevelOutputPaths := [("warn", ["warn.log"])] } : Options).LevelOutputMode = "exact" →
      Core.mk (.exactLevel warnLevel) [Writer.sizeRotFile "warn.log"] ∈
        buildCores { NewOptions with EnableLevelOutput := true, LevelOutputMode := "above", LevelOutputPaths := [("warn", ["warn.log"])] } infoLevel
      ∧ ((LevelEnabler.exactLevel warnLevel).accepts warnLevel = true ↔ warnLevel = warnLevel))
    ∧ (({ NewOptions with EnableLevelOutput := true, LevelOutputMode := "above", LevelOutputPaths := [("warn", ["warn.log"])] } : Options).LevelOutputMode ≠ "duplicate" →
      buildCores { NewOptions with EnableLevelOutput := true, LevelOutputMode := "above", LevelOutputPaths := [("warn", ["warn.log"])] } infoLevel
        = buildCores { NewOptions with EnableLevelOutput := true, LevelOutputMode := "above", LevelOutputPaths := [("warn", ["warn.log"])] } fatalLevel) :=
  c2_above_exact_mode_predicates
    { NewOptions with EnableLevelOutput := true, LevelOutputMode := "above", LevelOutputPaths := [("warn", ["warn.log"])] }
    infoLevel fatalLevel warnLevel warnLevel "warn" ["warn.log"]
    (by decide) (by decide) (by decide)

/-! ## C7 helpers -/

theorem lookup_some_iff_mem {l : List (String × List String)} {k : String}
    {v : List String} (hnd : (l.map Prod.fst).Nodup) :
    List.lookup k l = some v ↔ (k, v) ∈ l := by
  induction l with
  | nil => simp [List.lookup]
  | cons a t ih =>
    obtain ⟨a1, a2⟩ := a
    have hnd1 : a1 ∉ t.map Prod.fst := by
      have := hnd
      simp only [List.map_cons, List.nodup_cons] at this
      exact this.1
    have hnd2 : (t.map Prod.fst).Nodup := by
      have := hnd
      simp only [List.map_cons, List.nodup_cons] at this
      exact this.2
    by_cases hk : k = a1
    · subst hk
      constructor
      · intro h
        simp only [List.lookup, beq_self_eq_true] at h
        exact List.mem_cons.mpr (Or.inl (by simpa using h.symm))
      · intro h
        rcases List.mem_cons.mp h with h1 | h2
        · obtain ⟨h1a, h1b⟩ := Prod.mk.injEq .. ▸ h1
          simp [List.lookup, h1b]
        · exact absurd (List.mem_map.mpr ⟨(k, v), h2, rfl⟩) hnd1
    · have hbeq : (k == a1) = false := beq_eq_false_iff_ne.mpr hk
      constructor
      · intro h
        simp only [List.lookup, hbeq] at h
        exact List.mem_cons.mpr (Or.inr ((ih hnd2).mp h))
      · intro h
        rcases List.mem_cons.mp h with h1 | h2
        · exact absurd (congrArg Prod.fst h1) hk
        · simp only [List.lookup, hbeq]
          exact (ih hnd2).mpr h2

theorem filterMap_ne_nil_iff {α β : Type} {f : α → Option β} {l : List α} :
    l.filterMap f ≠ [] ↔ ∃ a ∈ l, (f a).isSome := by
  constructor
  · intro h
    rcases List.exists_mem_of_ne_nil _ h with ⟨b, hb⟩
    rcases List.mem_filterMap.mp hb with ⟨a, ha, hfa⟩
    exact ⟨a, ha, by simp [hfa]⟩
  · rintro ⟨a, ha, hfa⟩
    rcases Option.isSome_iff_exists.mp hfa with ⟨b, hb⟩
    exact List.ne_nil_of_mem (List.mem_filterMap.mpr ⟨a, ha, hb⟩)

/-- The per-entry success condition of the router: key "all" counts in
duplicate mode, otherwise the key must parse; the destinations must
yield at least one usable syncer. -/
def usableEntry (opts : Options) (entry : String × List String) : Prop :=
  buildSyncers entry.2 opts ≠ []
    ∧ (if opts.LevelOutputMode = "duplicate"
       then entry.1 = "all" ∨ (unmarshalText entry.1).isSome
       else (unmarshalText entry.1).isSome)

theorem unmarshalText_all : unmarshalText "all" = none := by decide

/-! ## C7 -/

/-- C7: the router build fails iff zero pipelines result: it succeeds
exactly when some configured rule has a usable destination and a level
key that parses (or is "all" in duplicate mode); unparseable rules are
dropped rather than failing the build, and the only error is the
"no valid log output configured" one, raised exactly when the core list
is empty. -/
theorem c7_router_build_error_iff
    (opts : Options) (zapLevel : ZapLevel)
    (hnd : (opts.LevelOutputPaths.map Prod.fst).Nodup) :
    ((newLoggerWithLevelOutput opts zapLevel).isOk = true ↔
      ∃ entry ∈ opts.LevelOutputPaths, usableEntry opts entry)
    ∧ (newLoggerWithLevelOutput opts zapLevel = .error "no valid log output configured"
        ↔ buildCores opts zapLevel = []) := by
  have hIsOk : (newLoggerWithLevelOutput opts zapLevel).isOk = true
      ↔ buildCores opts zapLevel ≠ [] := by
    unfold newLoggerWithLevelOutput
    by_cases h : (buildCores opts zapLevel).length = 0
    · simp [h, Except.isOk, Except.toBool, List.length_eq_zero.mp h]
    · simp [h, Except.isOk, Except.toBool, List.length_eq_zero.not.mp h]
  have hErr : newLoggerWithLevelOutput opts zapLevel = .error "no valid log output configured"
      ↔ buildCores opts zapLevel = [] := by
    unfold newLoggerWithLevelOutput
    by_cases h : (buildCores opts zapLevel).length = 0
    · simp [h, List.length_eq_zero.mp h]
    · simp [h, List.length_eq_zero.not.mp h]
  refine ⟨hIsOk.trans ?_, hErr⟩
  by_cases hmode : opts.LevelOutputMode = "duplicate"
  · have hsplit : buildCores opts zapLevel = allCore opts zapLevel ++ dupLevelCores opts := by
      unfold buildCores
      rw [if_pos hmode]
    constructor
    · intro h
      rw [hsplit] at h
      have : allCore opts zapLevel ≠ [] ∨ dupLevelCores opts ≠ [] := by
        by_contra hc
        push_neg at hc
        exact h (by rw [hc.1, hc.2]; rfl)
      rcases this with h1 | h2
      · unfold allCore at h1
        rcases hl : List.lookup "all" opts.LevelOutputPaths with _ | allPaths
        · rw [hl] at h1
          exact absurd rfl h1
        · rw [hl] at h1
          have hmem : ("all", allPaths) ∈ opts.LevelOutputPaths :=
            (lookup_some_iff_mem hnd).mp hl

          refine ⟨("all", allPaths), hmem, ?_, ?_⟩
          · intro hws
            have hws' : buildSyncers allPaths opts = [] := hws
            simp [hws'] at h1
          · rw [if_pos hmode]
            exact Or.inl rfl
      · rcases filterMap_ne_nil_iff.mp h2 with ⟨entry, hmem, hsome⟩
        refine ⟨entry, hmem, ?_, ?_⟩
        · intro hws
          rcases hne : decide (entry.1 = "all") with _ | _
          · rcases hp : unmarshalText entry.1 with _ | lvl
            · simp [of_decide_eq_false hne, hp] at hsome
            · simp [of_decide_eq_false hne, hp, hws] at hsome
          · simp [of_decide_eq_true hne] at hsome
        · rw [if_pos hmode]
          rcases hne : decide (entry.1 = "all") with _ | _
          · rcases hp : unmarshalText entry.1 with _ | lvl
            · simp [of_decide_eq_false hne, hp] at hsome
            · exact Or.inr (by simp [hp])
          · exact Or.inl (of_decide_eq_true hne)
    · rintro ⟨entry, hmem, hws, hkey⟩
      rw [if_pos hmode] at hkey
      rw [hsplit]
      rcases hkey with hallKey | hparse
      · have hl : List.lookup "all" opts.LevelOutputPaths = some entry.2 :=
          (lookup_some_iff_mem hnd).mpr (by
            rcases entry with ⟨e1, e2⟩
            simpa using hallKey ▸ hmem)
        have hAllLen : 0 < entry.2.length := length_pos_of_buildSyncers_ne_nil hws
        have hWsLen : 0 < (buildSyncers entry.2 opts).length := List.length_pos.mpr hws
        have : allCore opts zapLevel ≠ [] := by
          unfold allCore
          rw [hl]
          simp [if_pos hAllLen, if_pos hWsLen]
        intro hc
        rcases List.append_eq_nil.mp hc with ⟨hc1, _⟩
        exact this hc1
      · have hne : entry.1 ≠ "all" := by
          intro he
          rw [he, unmarshalText_all] at hparse
          simp at hparse
        rcases Option.isSome_iff_exists.mp hparse with ⟨L, hL⟩
        have : dupLevelCores opts ≠ [] := by
          apply List.ne_nil_of_mem (a := Core.mk (.exactLevel L) (buildSyncers entry.2 opts))
          unfold dupLevelCores
          apply List.mem_filterMap.mpr
          refine ⟨entry, hmem, ?_⟩
          simp only [if_neg hne, hL, if_pos (List.length_pos.mpr hws)]
        intro hc
        rcases List.append_eq_nil.mp hc with ⟨_, hc2⟩
        exact this hc2
  · have hsplit : buildCores opts zapLevel = nonDupCores opts := by
      unfold buildCores
      rw [if_neg hmode]
    constructor
    · intro h
      rw [hsplit] at h
      rcases filterMap_ne_nil_iff.mp h with ⟨entry, hmem, hsome⟩
      refine ⟨entry, hmem, ?_, ?_⟩
      · intro hws
        rcases hp : unmarshalText entry.1 with _ | lvl
        · simp [hp] at hsome
        · simp [hp, hws] at hsome
      · rw [if_neg hmode]
        rcases hp : unmarshalText entry.1 with _ | lvl
        · simp [hp] at hsome
        · simp [hp]
    · rintro ⟨entry, hmem, hws, hkey⟩
      rw [if_neg hmode] at hkey
      rcases Option.isSome_iff_exists.mp hkey with ⟨L, hL⟩
      rw [hsplit]
      apply List.ne_nil_of_mem (a :=
        if opts.LevelOutputMode = "exact"
        then Core.mk (.exactLevel L) (buildSyncers entry.2 opts)
        else Core.mk (.minLevel L) (buildSyncers entry.2 opts))
      unfold nonDupCores
      apply List.mem_filterMap.mpr
      refine ⟨entry, hmem, ?_⟩
      have hlen : ¬(buildSyncers entry.2 opts).length = 0 := by
        simpa [List.length_eq_zero] using hws
      by_cases hex : opts.LevelOutputMode = "exact"
      · simp only [hL, if_neg hlen, if_pos hex]
      · simp only [hL, if_neg hlen, if_neg hex]

/-- Witness for C7: a configuration holding one unparseable rule
("verbose") and one valid error rule builds successfully; the same
configuration with only the unparseable rule yields the configuration
error. -/
theorem c7_router_build_error_iff_witness :
    ((newLoggerWithLevelOutput { NewOptions with EnableLevelOutput := true, LevelOutputMode := "above", LevelOutputPaths := [("verbose", ["v.log"]), ("error", ["err.log"])] } infoLevel).isOk = true ↔
      ∃ entry ∈ ({ NewOptions with EnableLevelOutput := true, LevelOutputMode := "above", LevelOutputPaths := [("verbose", ["v.log"]), ("error", ["err.log"])] } : Options).LevelOutputPaths,
        usableEntry { NewOptions with EnableLevelOutput := true, LevelOutputMode := "above", LevelOutputPaths := [("verbose", ["v.log"]), ("error", ["err.log"])] } entry)
    ∧ (newLoggerWithLevelOutput { NewOptions with EnableLevelOutput := true, LevelOutputMode := "above", LevelOutputPaths := [("verbose", ["v.log"]), ("error", ["err.log"])] } infoLevel
        = .error "no valid log output configured"
       ↔ buildCores { NewOptions with EnableLevelOutput := true, LevelOutputMode := "above", LevelOutputPaths := [("verbose", ["v.log"]), ("error", ["err.log"])] } infoLevel = []) :=
  c7_router_build_error_iff
    { NewOptions with EnableLevelOutput := true, LevelOutputMode := "above", LevelOutputPaths := [("verbose", ["v.log"]), ("error", ["err.log"])] }
    infoLevel (by decide)

/-! ## C8 -/

theorem strData_append (s t : String) : (s ++ t).data = s.data ++ t.data := rfl

theorem strDropLast_append (s t : String) : strDropLast (s ++ t) t.length = s := by
  unfold strDropLast
  rw [strData_append, List.length_append]
  have hlen : s.data.length + t.data.length - t.length = s.data.length := by
    have : t.length = t.data.length := rfl
    rw [this, Nat.add_sub_cancel]
  rw [hlen, List.take_left]

/-- C8: for a base filename of the form stem-plus-extension (the
extension as `filepath.Ext` computes it), the rotation opens the file
named stem, dot, bucket label, extension, records that name in
`currentFile` together with the new date, and `getCurrentFilename`
reports the same name — also in the closed state, where it renders the
name the next rotation would open. -/
theorem c8_rotated_file_naming
    (stem ext B : String) (hext : pathExt (stem ++ ext) = ext)
    (env : FsEnv) (w : RotWriter) (d nd : String)
    (hrot : (rotate env w d).1 = none)
    (wc : RotWriter) (nc : String) (hclosed : wc.currentFile = none) :
    rotatedName (stem ++ ext) B = stem ++ "." ++ B ++ ext
    ∧ (rotate env w d).2.currentFile = some ⟨rotatedName w.filename d, false⟩
    ∧ (rotate env w d).2.currentDate = d
    ∧ getCurrentFilename (rotate env w d).2 nd = rotatedName w.filename d
    ∧ getCurrentFilename wc nc = rotatedName wc.filename nc := by
  have hname : rotatedName (stem ++ ext) B = stem ++ "." ++ B ++ ext := by
    unfold rotatedName
    rw [hext, strDropLast_append]
  have hstate : (rotate env w d).2.currentFile = some ⟨rotatedName w.filename d, false⟩
      ∧ (rotate env w d).2.currentDate = d := by
    obtain ⟨fn, tf, cd, cfile, ma, cp⟩ := w
    obtain ⟨cf, mf, oe, wfail⟩ := env
    cases cfile with
    | none =>
      cases mf <;> cases oe <;>
        simp_all [rotate, rotateOpen]
    | some h =>
      obtain ⟨hn, hc⟩ := h
      cases hc <;> cases cf <;> cases mf <;> cases oe <;>
        simp_all [rotate, rotateOpen, closeHandle]
  refine ⟨hname, hstate.1, hstate.2, ?_, ?_⟩
  · rw [getCurrentFilename, hstate.1]
  · rw [getCurrentFilename, hclosed]

/-- Witness for C8: base `app.log` with daily bucket `2025-01-02`
yields `app.2025-01-02.log`, through a successful rotation from the
fresh writer and through `getCurrentFilename`. -/
theorem c8_rotated_file_naming_witness :
    rotatedName ("app" ++ ".log") "2025-01-02" = "app" ++ "." ++ "2025-01-02" ++ ".log"
    ∧ (rotate healthyFs (newTimeRotationWriter "app.log" "2006-01-02" 7 false) "2025-01-02").2.currentFile
        = some ⟨rotatedName (newTimeRotationWriter "app.log" "2006-01-02" 7 false).filename "2025-01-02", false⟩
    ∧ (rotate healthyFs (newTimeRotationWriter "app.log" "2006-01-02" 7 false) "2025-01-02").2.currentDate
        = "2025-01-02"
    ∧ getCurrentFilename (rotate healthyFs (newTimeRotationWriter "app.log" "2006-01-02" 7 false) "2025-01-02").2 "2025-01-03"
        = rotatedName (newTimeRotationWriter "app.log" "2006-01-02" 7 false).filename "2025-01-02"
    ∧ getCurrentFilename (newTimeRotationWriter "app.log" "2006-01-02" 7 false) "2025-01-02"
        = rotatedName (newTimeRotationWriter "app.log" "2006-01-02" 7 false).filename "2025-01-02" :=
  c8_rotated_file_naming "app" ".log" "2025-01-02" (by decide)
    healthyFs (newTimeRotationWriter "app.log" "2006-01-02" 7 false) "2025-01-02" "2025-01-03"
    (by decide)
    (newTimeRotationWriter "app.log" "2006-01-02" 7 false) "2025-01-02" (by decide)

/-! ## C10 / C4 helpers -/

theorem rotate_error_preserves (env : FsEnv) (w : RotWriter) (d e : String)
    (h : (rotate env w d).1 = some e) :
    (rotate env w d).2.currentDate = w.currentDate
    ∧ (rotate env w d).2.currentFile.isSome = w.currentFile.isSome
    ∧ (rotate env w d).2.currentFile.isNone = w.currentFile.isNone
    ∧ (rotate env w d).2.currentFile.map FileHandle.name
        = w.currentFile.map FileHandle.name := by
  obtain ⟨fn, tf, cd, cfile, ma, cp⟩ := w
  obtain ⟨cf, mf, oe, wfail⟩ := env
  cases cfile with
  | none =>
    cases mf <;> cases oe <;> simp_all [rotate, rotateOpen]
  | some hdl =>
    obtain ⟨hn, hc⟩ := hdl
    cases hc <;> cases cf <;> cases mf <;> cases oe <;>
      simp_all [rotate, rotateOpen, closeHandle]

theorem write_of_rotate_error (env : FsEnv) (w : RotWriter) (nowDate : String)
    (p : Nat) (e : String)
    (htrig : needsRotation w nowDate = true)
    (hrot : (rotate env w nowDate).1 = some e) :
    write env w nowDate p = (⟨0, some e, none⟩, (rotate env w nowDate).2) := by
  unfold write
  rw [if_pos htrig]
  rcases hr : rotate env w nowDate with ⟨err, w'⟩
  rw [hr] at hrot
  simp only at hrot
  rw [hrot]

theorem closeHandle_name (env : FsEnv) (h : FileHandle) :
    (closeHandle env h).2.name = h.name := by
  unfold closeHandle
  split
  · rfl
  · rfl

/-! ## C10 -/

/-- C10: when the rotation inside `Write` fails (close, mkdir, or open
error), that `Write` call returns byte count 0 with the rotation's
error, writes no bytes to any file, leaves `currentDate` and the
`currentFile` field as they were (same presence and same handle name),
and the next `Write` in the same bucket re-enters rotation. -/
theorem c10_write_rotation_failure_state
    (env : FsEnv) (w : RotWriter) (nowDate : String) (p : Nat) (e : String)
    (htrig : needsRotation w nowDate = true)
    (hrot : (rotate env w nowDate).1 = some e) :
    (write env w nowDate p).1 = ⟨0, some e, none⟩
    ∧ (write env w nowDate p).2.currentDate = w.currentDate
    ∧ (write env w nowDate p).2.currentFile.isSome = w.currentFile.isSome
    ∧ (write env w nowDate p).2.currentFile.map FileHandle.name
        = w.currentFile.map FileHandle.name
    ∧ needsRotation (write env w nowDate p).2 nowDate = true := by
  have hpres := rotate_error_preserves env w nowDate e hrot
  have hw := write_of_rotate_error env w nowDate p e htrig hrot
  rw [hw]
  refine ⟨rfl, hpres.1, hpres.2.1, hpres.2.2.2, ?_⟩
  unfold needsRotation at htrig ⊢
  rw [hpres.2.2.1, hpres.1]
  exact htrig

/-- Witness for C10: a fresh writer against a failing-mkdir filesystem;
the first write fails with the mkdir error, stays handle-less in the
empty bucket, and would rotate again on the next write. -/
theorem c10_write_rotation_failure_state_witness :
    (write ⟨false, true, false, false⟩ (newTimeRotationWriter "app.log" "2006-01-02" 7 false) "2025-01-02" 5).1
        = ⟨0, some "mkdir error", none⟩
    ∧ (write ⟨false, true, false, false⟩ (newTimeRotationWriter "app.log" "2006-01-02" 7 false) "2025-01-02" 5).2.currentDate
        = (newTimeRotationWriter "app.log" "2006-01-02" 7 false).currentDate
    ∧ (write ⟨false, true, false, false⟩ (newTimeRotationWriter "app.log" "2006-01-02" 7 false) "2025-01-02" 5).2.currentFile.isSome
        = (newTimeRotationWriter "app.log" "2006-01-02" 7 false).currentFile.isSome
    ∧ (write ⟨false, true, false, false⟩ (newTimeRotationWriter "app.log" "2006-01-02" 7 false) "2025-01-02" 5).2.currentFile.map FileHandle.name
        = (newTimeRotationWriter "app.log" "2006-01-02" 7 false).currentFile.map FileHandle.name
    ∧ needsRotation (write ⟨false, true, false, false⟩ (newTimeRotationWriter "app.log" "2006-01-02" 7 false) "2025-01-02" 5).2 "2025-01-02" = true :=
  c10_write_rotation_failure_state ⟨false, true, false, false⟩
    (newTimeRotationWriter "app.log" "2006-01-02" 7 false) "2025-01-02" 5 "mkdir error"
    (by decide) (by decide)

/-! ## C4 -/

/-- C4 counterexample: with an open handle whose close fails, the write
that triggers rotation returns the close error as its own failure with
byte count 0 — the rotation does not proceed to the new bucket's file
(the date stays at the old bucket and the handle name at the old file),
contradicting the claim that a close error is only a logged side
effect. -/
theorem c4_close_error_counterexample :
    (write ⟨true, false, false, false⟩
        ⟨"app.log", "2006-01-02", "2025-01-01", some ⟨"app.2025-01-01.log", false⟩, 7, false⟩
        "2025-01-02" 5).1.err = some "close error"
    ∧ (write ⟨true, false, false, false⟩
        ⟨"app.log", "2006-01-02", "2025-01-01", some ⟨"app.2025-01-01.log", false⟩, 7, false⟩
        "2025-01-02" 5).1.n = 0
    ∧ (write ⟨true, false, false, false⟩
        ⟨"app.log", "2006-01-02", "2025-01-01", some ⟨"app.2025-01-01.log", false⟩, 7, false⟩
        "2025-01-02" 5).2.currentDate = "2025-01-01"
    ∧ (write ⟨true, false, false, false⟩
        ⟨"app.log", "2006-01-02", "2025-01-01", some ⟨"app.2025-01-01.log", false⟩, 7, false⟩
        "2025-01-02" 5).2.currentFile.map FileHandle.name
        = some "app.2025-01-01.log" := by
  refine ⟨?_, ?_, ?_, ?_⟩ <;> rfl

/-- C4 as amended: an error from closing the previous handle during
rotation aborts the rotation and is returned as the failure of that
`Write` call — byte count 0, no bytes written, no new file opened, the
bucket date and the handle name unchanged. -/
theorem c4_close_error_aborts_write
    (env : FsEnv) (w : RotWriter) (h : FileHandle) (nowDate : String)
    (p : Nat) (e : String)
    (hfile : w.currentFile = some h)
    (htrig : needsRotation w nowDate = true)
    (hclose : (closeHandle env h).1 = some e) :
    (write env w nowDate p).1 = ⟨0, some e, none⟩
    ∧ (write env w nowDate p).2.currentDate = w.currentDate
    ∧ (write env w nowDate p).2.currentFile.map FileHandle.name = some h.name := by
  have hrot : (rotate env w nowDate).1 = some e
      ∧ (rotate env w nowDate).2.currentFile.map FileHandle.name = some h.name
      ∧ (rotate env w nowDate).2.currentDate = w.currentDate := by
    unfold rotate
    rw [hfile]
    rcases hch : closeHandle env h with ⟨err, h'⟩
    have herr : err = some e := by
      rw [hch] at hclose
      exact hclose
    have hnm : h'.name = h.name := by
      have := closeHandle_name env h
      rw [hch] at this
      exact this
    simp [hch, herr, hnm]
  have hw := write_of_rotate_error env w nowDate p e htrig hrot.1
  rw [hw]
  exact ⟨rfl, hrot.2.2, hrot.2.1⟩

/-- Witness for C4's amended statement: the concrete failing-close
scenario. -/
theorem c4_close_error_aborts_write_witness :
    (write ⟨true, false, false, false⟩
        ⟨"app.log", "2006-01-02", "2025-01-01", some ⟨"app.2025-01-01.log", false⟩, 7, false⟩
        "2025-01-02" 6).1 = ⟨0, some "close error", none⟩
    ∧ (write ⟨true, false, false, false⟩
        ⟨"app.log", "2006-01-02", "2025-01-01", some ⟨"app.2025-01-01.log", false⟩, 7, false⟩
        "2025-01-02" 6).2.currentDate
        = (⟨"app.log", "2006-01-02", "2025-01-01", some ⟨"app.2025-01-01.log", false⟩, 7, false⟩ : RotWriter).currentDate
    ∧ (write ⟨true, false, false, false⟩
        ⟨"app.log", "2006-01-02", "2025-01-01", some ⟨"app.2025-01-01.log", false⟩, 7, false⟩
        "2025-01-02" 6).2.currentFile.map FileHandle.name
        = some (FileHandle.name ⟨"app.2025-01-01.log", false⟩) :=
  c4_close_error_aborts_write ⟨true, false, false, false⟩
    ⟨"app.log", "2006-01-02", "2025-01-01", some ⟨"app.2025-01-01.log", false⟩, 7, false⟩
    ⟨"app.2025-01-01.log", false⟩ "2025-01-02" 6 "close error"
    (by decide) (by decide) (by decide)

/-! ## C5 -/

/-- C5 counterexample: on a writer with an open handle, the second of
two successive `Close` calls does not succeed — it returns the
"file already closed" error of the underlying handle, because `Close`
never clears the `currentFile` field. -/
theorem c5_second_close_errors_counterexample :
    (closeWriter healthyFs
        (closeWriter healthyFs
          ⟨"app.log", "2006-01-02", "2025-01-01", some ⟨"app.2025-01-01.log", false⟩, 7, false⟩).2).1
      = some "file already closed"
    ∧ (closeWriter healthyFs
        ⟨"app.log", "2006-01-02", "2025-01-01", some ⟨"app.2025-01-01.log", false⟩, 7, false⟩).1
      = none := by
  exact ⟨rfl, rfl⟩

/-- C5 as amended: `Close` is idempotent on the writer state — the
second call leaves the state exactly as the first left it — but not
error-free: with no handle both calls return no error, while with a
handle the second call re-closes the same (never cleared) handle and
returns its already-closed error. -/
theorem c5_close_state_idempotent (env : FsEnv) (w : RotWriter) :
    (closeWriter env (closeWriter env w).2).2 = (closeWriter env w).2
    ∧ (w.currentFile = none →
        (closeWriter env w).1 = none
        ∧ (closeWriter env (closeWriter env w).2).1 = none)
    ∧ (∀ h, w.currentFile = some h →
        (closeWriter env (closeWriter env w).2).1 = some "file already closed") := by
  obtain ⟨fn, tf, cd, cfile, ma, cp⟩ := w
  obtain ⟨cf, mf, oe, wfail⟩ := env
  cases cfile with
  | none => simp [closeWriter]
  | some hdl =>
    obtain ⟨hn, hc⟩ := hdl
    cases hc <;> cases cf <;> simp [closeWriter, closeHandle]

/-- Witness for C5's amended statement: the open-handle writer; the
double close keeps the single-close state and errors the second time. -/
theorem c5_close_state_idempotent_witness :
    (closeWriter healthyFs
        (closeWriter healthyFs
          ⟨"app.log", "2006-01-02", "2025-01-01", some ⟨"app.2025-01-01.log", false⟩, 7, false⟩).2).2
      = (closeWriter healthyFs
          ⟨"app.log", "2006-01-02", "2025-01-01", some ⟨"app.2025-01-01.log", false⟩, 7, false⟩).2
    ∧ (closeWriter healthyFs
        (closeWriter healthyFs
          ⟨"app.log", "2006-01-02", "2025-01-01", some ⟨"app.2025-01-01.log", false⟩, 7, false⟩).2).1
      = some "file already closed" :=
  ⟨(c5_close_state_idempotent healthyFs
      ⟨"app.log", "2006-01-02", "2025-01-01", some ⟨"app.2025-01-01.log", false⟩, 7, false⟩).1,
   (c5_close_state_idempotent healthyFs
      ⟨"app.log", "2006-01-02", "2025-01-01", some ⟨"app.2025-01-01.log", false⟩, 7, false⟩).2.2
     ⟨"app.2025-01-01.log", false⟩ rfl⟩

/-! ## C3 -/

/-- The base-name prefix `cleanOldFiles` matches against. -/
def cleanBase (filename : String) : String :=
  pathBase (strDropLast filename (pathExt filename).length)

/-- C3 counterexample: the retention cleanup can delete the file
currently open for writing.  After rotating into bucket 2025-01-02 the
open file is `app.2025-01-02.log`; when that file pre-existed with a
modification time before the cutoff (it was re-opened in append mode,
which keeps the old mod time), the cleanup triggered by the rotation
removes it even though it is the open file. -/
theorem c3_open_file_deleted_counterexample :
    (rotate healthyFs (newTimeRotationWriter "app.log" "2006-01-02" 1 false)
        "2025-01-02").2.currentFile.map FileHandle.name
      = some "app.2025-01-02.log"
    ∧ "app.2025-01-02.log" ∈
        cleanOldFiles "app.log" 1 10 [⟨"app.2025-01-02.log", 0, false⟩] := by
  exact ⟨rfl, by decide⟩

/-- C3 as amended: with `maxAge` > 0 the cleanup removes exactly the
non-directory files whose base name starts with the writer's base
prefix and whose modification time lies before `now - maxAge`; it has
no special protection for the currently open file, which survives only
because (in the normal run) its modification time is at or after the
cutoff — and every file at or after the cutoff is never removed. -/
theorem c3_clean_removes_iff
    (filename : String) (maxAge now : Int) (files : List FsFile) (pth : String)
    (hage : 0 < maxAge) :
    (pth ∈ cleanOldFiles filename maxAge now files ↔
      ∃ f ∈ files, f.path = pth ∧ f.isDir = false
        ∧ (cleanBase filename).data.isPrefixOf (pathBase f.path).data = true
        ∧ f.modTime < now - maxAge)
    ∧ (∀ f ∈ files, now - maxAge ≤ f.modTime →
        cleanRemoves (cleanBase filename) (now - maxAge) f = false) := by
  have hneg : ¬maxAge ≤ 0 := not_le.mpr hage
  constructor
  · unfold cleanOldFiles
    rw [if_neg hneg]
    constructor
    · intro hmem
      rcases List.mem_map.mp hmem with ⟨f, hf, hfp⟩
      rcases List.mem_filter.mp hf with ⟨hfin, hrem⟩
      unfold cleanRemoves at hrem
      simp only [Bool.and_eq_true, Bool.not_eq_true', decide_eq_true_eq] at hrem
      exact ⟨f, hfin, hfp, hrem.1.1, hrem.1.2, hrem.2⟩
    · rintro ⟨f, hfin, hfp, hdir, hpre, hmod⟩
      apply List.mem_map.mpr
      refine ⟨f, List.mem_filter.mpr ⟨hfin, ?_⟩, hfp⟩
      unfold cleanRemoves
      simp only [Bool.and_eq_true, Bool.not_eq_true', decide_eq_true_eq]
      exact ⟨⟨hdir, hpre⟩, hmod⟩
  · intro f _ hmod
    unfold cleanRemoves
    simp [not_lt.mpr hmod]

/-- Witness for C3's amended statement: the spec's B1..B5 story —
buckets at mod times 4, 6, 8, 9, 10 with `maxAge` 2 and now 10: exactly
the files older than the cutoff 8 are removed, and the just-written
current file at mod time 10 is kept. -/
theorem c3_clean_removes_iff_witness :
    ("app.b1.log" ∈ cleanOldFiles "app.log" 2 10
        [⟨"app.b1.log", 4, false⟩, ⟨"app.b2.log", 6, false⟩, ⟨"app.b3.log", 8, false⟩,
         ⟨"app.b4.log", 9, false⟩, ⟨"app.b5.log", 10, false⟩] ↔
      ∃ f ∈ [(⟨"app.b1.log", 4, false⟩ : FsFile), ⟨"app.b2.log", 6, false⟩, ⟨"app.b3.log", 8, false⟩,
         ⟨"app.b4.log", 9, false⟩, ⟨"app.b5.log", 10, false⟩],
        f.path = "app.b1.log" ∧ f.isDir = false
        ∧ (cleanBase "app.log").data.isPrefixOf (pathBase f.path).data = true
        ∧ f.modTime < 10 - 2)
    ∧ (∀ f ∈ [(⟨"app.b1.log", 4, false⟩ : FsFile), ⟨"app.b2.log", 6, false⟩, ⟨"app.b3.log", 8, false⟩,
         ⟨"app.b4.log", 9, false⟩, ⟨"app.b5.log", 10, false⟩], (10 : Int) - 2 ≤ f.modTime →
        cleanRemoves (cleanBase "app.log") (10 - 2) f = false) :=
  c3_clean_removes_iff "app.log" 2 10
    [⟨"app.b1.log", 4, false⟩, ⟨"app.b2.log", 6, false⟩, ⟨"app.b3.log", 8, false⟩,
     ⟨"app.b4.log", 9, false⟩, ⟨"app.b5.log", 10, false⟩] "app.b1.log" (by decide)

/-! ## C6 -/

/-- C6 counterexample: resolving the same file path twice does not
return the same writer instance — the second resolution allocates a
fresh `TimeRotationWriter`. -/
theorem c6_resolver_distinct_instances_counterexample :
    (createWriteSyncerAlloc "/var/log/app.log"
        { NewOptions with EnableTimeRotation := true } 0).1
      ≠ (createWriteSyncerAlloc "/var/log/app.log"
          { NewOptions with EnableTimeRotation := true }
          (createWriteSyncerAlloc "/var/log/app.log"
            { NewOptions with EnableTimeRotation := true } 0).2).1 := by
  decide

/-- C6 as amended: `createWriteSyncer` consults no cache: every
resolution of a path — the same path included — allocates a fresh
writer, so two successive resolutions always return distinct
instances. -/
theorem c6_each_resolution_allocates_fresh (path : String) (opts : Options) (n : Nat) :
    (createWriteSyncerAlloc path opts n).1.map WriterRef.id = some n
    ∧ (createWriteSyncerAlloc path opts
        (createWriteSyncerAlloc path opts n).2).1.map WriterRef.id = some (n + 1)
    ∧ (createWriteSyncerAlloc path opts n).1
        ≠ (createWriteSyncerAlloc path opts (createWriteSyncerAlloc path opts n).2).1 := by
  have hid : ∀ m : Nat, (createWriteSyncerAlloc path opts m).1.map WriterRef.id = some m
      ∧ (createWriteSyncerAlloc path opts m).2 = m + 1 := by
    intro m
    unfold createWriteSyncerAlloc
    by_cases hc : path = "stdout" ∨ path = "stderr"
    · simp [if_pos hc]
    · by_cases ht : opts.EnableTimeRotation = true
      · simp [if_neg hc, ht]
      · simp [if_neg hc, ht]
  refine ⟨(hid n).1, ?_, ?_⟩
  · rw [(hid n).2]
    exact (hid (n + 1)).1
  · intro heq
    have h1 := (hid n).1
    have h2 : (createWriteSyncerAlloc path opts
        (createWriteSyncerAlloc path opts n).2).1.map WriterRef.id = some (n + 1) := by
      rw [(hid n).2]
      exact (hid (n + 1)).1
    rw [heq, h2] at h1
    exact absurd (Option.some.inj h1) (by omega)

/-- Witness for C6's amended statement: two successive resolutions of
`/var/log/app.log` with time rotation enabled allocate ids 0 and 1. -/
theorem c6_each_resolution_allocates_fresh_witness :
    (createWriteSyncerAlloc "/var/log/app.log"
        { NewOptions with EnableTimeRotation := true } 0).1.map WriterRef.id = some 0
    ∧ (createWriteSyncerAlloc "/var/log/app.log"
        { NewOptions with EnableTimeRotation := true }
        (createWriteSyncerAlloc "/var/log/app.log"
          { NewOptions with EnableTimeRotation := true } 0).2).1.map WriterRef.id = some 1
    ∧ (createWriteSyncerAlloc "/var/log/app.log"
        { NewOptions with EnableTimeRotation := true } 0).1
      ≠ (createWriteSyncerAlloc "/var/log/app.log"
          { NewOptions with EnableTimeRotation := true }
          (createWriteSyncerAlloc "/var/log/app.log"
            { NewOptions with EnableTimeRotation := true } 0).2).1 :=
  c6_each_resolution_allocates_fresh "/var/log/app.log"
    { NewOptions with EnableTimeRotation := true } 0

/-! ## C9 -/

/-- C9 counterexample: an invalid severity name does not fail sink
construction — `New` silently substitutes the info level and
constructs the sink. -/
theorem c9_invalid_level_constructs_counterexample :
    unmarshalText "verbose" = none
    ∧ (New { NewOptions with Level := "verbose" }).isOk = true
    ∧ (New { NewOptions with Level := "verbose" }).toOption.map Sink.level
        = some infoLevel := by
  exact ⟨by decide, rfl, rfl⟩

/-- C9 as amended: `Validate` does report an unrecognized severity name
as a configuration error, but `New` does not fail on it: whenever `New`
returns a sink for such options, that sink runs at the substituted info
level. -/
theorem c9_invalid_level_substitutes_info
    (opts : Options) (hbad : unmarshalText opts.Level = none) :
    ("unrecognized level: " ++ opts.Level) ∈ Validate opts
    ∧ (∀ s, New opts = .ok s → s.level = infoLevel) := by
  constructor
  · unfold Validate
    rw [hbad]
    simp
  · intro s hs
    unfold New at hs
    rw [hbad] at hs
    by_cases hb1 : opts.EnableLevelOutput ∧ 0 < opts.LevelOutputPaths.length
    · rw [if_pos hb1] at hs
      rcases hres : newLoggerWithLevelOutput opts infoLevel with e | cores <;>
        rw [hres] at hs <;> simp [Except.map] at hs
      rw [← hs]
    · rw [if_neg hb1] at hs
      by_cases hb2 : opts.EnableTimeRotation = true
      · rw [if_pos hb2] at hs
        rcases hres : newLoggerWithTimeRotation opts infoLevel with e | cores <;>
          rw [hres] at hs <;> simp [Except.map] at hs
        rw [← hs]
      · rw [if_neg hb2] at hs
        simp at hs
        rw [← hs]

/-- Witness for C9's amended statement at the concrete options with
level name "verbose". -/
theorem c9_invalid_level_substitutes_info_witness :
    ("unrecognized level: " ++ "verbose") ∈
        Validate { NewOptions with Level := "verbose" }
    ∧ (New { NewOptions with Level := "verbose" }).toOption.map Sink.level
        = some infoLevel :=
  ⟨(c9_invalid_level_substitutes_info { NewOptions with Level := "verbose" }
      (by decide)).1,
   by
    have h := (c9_invalid_level_substitutes_info { NewOptions with Level := "verbose" }
      (by decide)).2
    rfl⟩

end CompBase
